import Mathlib

/-!
A verification development for the RecastXZ bridge (src/src/lib.rs): a
dual-surface bridge that exposes the libdeflater compression engine to a
managed runtime (JNI entry points) and to plain C callers (rxz_* entry
points), driving the engine through caller-supplied raw (address, length)
buffer pairs.

Shallow embedding conventions:
* Raw byte memory is a total map `Nat → UInt8`; `slice::from_raw_parts` of
  (addr, len) is `readBytes`, and the engine writing its output into the
  destination slice is `writeBytes`.
* A Rust raw context pointer is `Option Ctx` (`none` is the null pointer; a
  dangling non-null pointer is undefined behavior in the source and is not
  representable here).
* The JNI `jlong` handle is an `Int`; the cast `ctx as *mut T` is
  `castHandle w ctx`, where `w` maps each non-zero handle value to the live
  context it points at (if any).
* `jint`/`c_int` values are `Int`; `x as usize` is `toUsize`, and
  `sz as jint` / `sz as c_int` is `jintOfUsize` (32-bit two's complement
  truncation).
* The compression engine itself (libdeflater) is an external collaborator of
  this repository and is modelled abstractly from the spec.
-/

namespace RecastXZ

/-- Byte-addressable raw memory shared between the bridge and its callers. -/
abbrev Mem : Type := Nat → UInt8

/-- The bytes of the region [addr, addr+len), as read through
`slice::from_raw_parts(addr, len)`. -/
def readBytes (m : Mem) (addr len : Nat) : List UInt8 :=
  (List.range len).map fun i => m (addr + i)

/-- Memory after the engine has written the bytes `bs` at `addr`
(the effect of filling a `slice::from_raw_parts_mut` destination). -/
def writeBytes (m : Mem) (addr : Nat) (bs : List UInt8) : Mem :=
  fun a => if addr ≤ a ∧ a < addr + bs.length then bs.getD (a - addr) 0 else m a

/-- Modelled from the spec: the error type of the external engine's compress
operation (libdeflater is out of scope of src/; spec section 4.2 keeps a
defensive "any engine error outside the above categories", which `Other`
stands for). -/
inductive CompressionError
  | InsufficientSpace
  | Other
deriving DecidableEq

/-- Modelled from the spec: the error type of the external engine's decompress
operation — insufficient space, bad data, and the spec's defensive
"any engine error outside the above categories" (`Other`). -/
inductive DecompressionError
  | BadData
  | InsufficientSpace
  | Other
deriving DecidableEq

/-- src/src/lib.rs lines 8-12: the internal outcome of one compression call. -/
inductive DeflateResult
  | Success (size : Nat)
  | InsufficientSpace
  | Error
deriving DecidableEq

/-- src/src/lib.rs lines 14-19: the internal outcome of one decompression
call. -/
inductive InflateResult
  | Success
  | InsufficientSpace
  | BadData
  | Error
deriving DecidableEq

/-- Modelled from the spec: the external compression engine, an opaque
capability ("compress(bytes)->bytes-or-error", "decompress(bytes)->
bytes-or-error").  `compress lvl src cap` / `decompress src cap` return the
bytes the engine writes into a destination of capacity `cap`, or an error.
`validLevel` is the engine's accepted compression-level range checked by
`CompressionLvl::new`.  `compress_length` records the engine contract that a
successful compress never writes more than the destination capacity. -/
structure Engine where
  validLevel : Int → Bool
  compress : Int → List UInt8 → Nat → Except CompressionError (List UInt8)
  decompress : List UInt8 → Nat → Except DecompressionError (List UInt8)
  compress_length : ∀ lvl src cap out, compress lvl src cap = .ok out → out.length ≤ cap

/-- src/src/lib.rs lines 21-23: a compression context owns one engine
compressor, whose configured level is fixed at creation. -/
structure DeflateContext where
  level : Int
deriving DecidableEq

/-- src/src/lib.rs lines 25-27: a decompression context owns one engine
decompressor; it has no configuration. -/
inductive InflateContext
  | mk
deriving DecidableEq

/-- Modelled from the spec: `CompressionLvl::new` (external libdeflater)
validates the requested level against the engine's accepted range. -/
def compressionLvlNew (eng : Engine) (level : Int) : Option Int :=
  if eng.validLevel level then some level else none

/-- src/src/lib.rs lines 29-38: validate the level, then box a fresh
compressor; `None` on an unsupported level. -/
def deflate_init (eng : Engine) (level : Int) : Option DeflateContext :=
  match compressionLvlNew eng level with
  | some lvl => some ⟨lvl⟩
  | none => none

/-- src/src/lib.rs lines 40-59: null-check the context, reinterpret the two
(address, length) pairs as source/destination slices, and delegate to the
engine; every engine error is classified as `InsufficientSpace`
(the source's catch-all `Err(_)` arm on line 57). -/
def deflate_process (eng : Engine) (ctx : Option DeflateContext) (m : Mem)
    (source_ptr source_len dest_ptr dest_len : Nat) : DeflateResult × Mem :=
  match ctx with
  | none => (.Error, m)
  | some context =>
    match eng.compress context.level (readBytes m source_ptr source_len) dest_len with
    | .ok out => (.Success out.length, writeBytes m dest_ptr out)
    | .error _ => (.InsufficientSpace, m)

/-- src/src/lib.rs lines 61-85: null-check the context, reinterpret the two
(address, length) pairs as slices, and delegate to the engine, classifying
the engine's error kinds; the final `Err(_)` arm (line 83) is the defensive
generic-error classification. -/
def inflate_process (eng : Engine) (ctx : Option InflateContext) (m : Mem)
    (source_ptr source_len dest_ptr dest_len : Nat) : InflateResult × Mem :=
  match ctx with
  | none => (.Error, m)
  | some _ =>
    match eng.decompress (readBytes m source_ptr source_len) dest_len with
    | .ok out => (.Success, writeBytes m dest_ptr out)
    | .error .InsufficientSpace => (.InsufficientSpace, m)
    | .error .BadData => (.BadData, m)
    | .error _ => (.Error, m)

/-- `x as usize` on a signed 32- or 64-bit value: sign-extend and reinterpret
as an unsigned 64-bit quantity. -/
def toUsize (i : Int) : Nat := (i % (2 : Int) ^ 64).toNat

/-- `sz as jint` / `sz as c_int`: truncate a usize to 32 bits and read the
result as two's complement. -/
def jintOfUsize (n : Nat) : Int :=
  if n % 2 ^ 32 < 2 ^ 31 then ((n % 2 ^ 32 : Nat) : Int)
  else ((n % 2 ^ 32 : Nat) : Int) - 2 ^ 32

/-- The cast `ctx as *mut T` of a `jlong` handle: 0 casts to the null pointer,
and a non-zero handle points at whatever live context `w` records for it. -/
def castHandle {α : Type} (w : Int → Option α) (ctx : Int) : Option α :=
  if ctx = 0 then none else w ctx

/-- A pending managed-runtime exception: the class passed to `find_class` and
the message passed to `throw_new`. -/
structure JavaException where
  className : String
  message : String
deriving DecidableEq

/-- Model of the allocator behind `Box::into_raw`: it hands out a fresh
address, which Rust guarantees is never null. -/
structure Alloc where
  nextAddr : Nat
  next_ne_zero : nextAddr ≠ 0

/-- `Box::into_raw(Box::new _)`: the address of the fresh box, and the
allocator afterwards. -/
def boxIntoRaw (a : Alloc) : Nat × Alloc :=
  (a.nextAddr, ⟨a.nextAddr + 1, Nat.succ_ne_zero _⟩)

/-- src/src/lib.rs lines 87-104 (JNI NativeZlibDeflate.init): on success the
boxed context's address as a jlong; on failure a thrown OutOfMemoryError and
the zero handle. -/
def jni_deflate_init (eng : Engine) (a : Alloc) (level : Int) :
    (Int × Option JavaException) × Alloc :=
  match deflate_init eng level with
  | some _ =>
    ((Int.ofNat (boxIntoRaw a).1, none), (boxIntoRaw a).2)
  | none =>
    ((0, some ⟨"java/lang/OutOfMemoryError", "libdeflate allocate compressor"⟩), a)

/-- src/src/lib.rs lines 106-115 (JNI NativeZlibDeflate.free): drop the box at
the handle's address unless the handle is 0. -/
def jni_deflate_free (w : Int → Option DeflateContext) (ctx : Int) :
    Int → Option DeflateContext :=
  if ctx ≠ 0 then fun a => if a = ctx then none else w a else w

/-- src/src/lib.rs lines 117-140 (JNI NativeZlibDeflate.process): cast the
handle and the buffer arguments, delegate to `deflate_process`, and translate
the outcome (success size as jint, 0 on either failure); this entry point
never throws. -/
def jni_deflate_process (eng : Engine) (w : Int → Option DeflateContext)
    (ctx source_address source_length destination_address destination_length : Int)
    (m : Mem) : (Int × Option JavaException) × Mem :=
  let r := deflate_process eng (castHandle w ctx) m
    (toUsize source_address) (toUsize source_length)
    (toUsize destination_address) (toUsize destination_length)
  ((match r.1 with
    | .Success size => jintOfUsize size
    | .InsufficientSpace => 0
    | .Error => 0, none), r.2)

/-- src/src/lib.rs lines 142-150 (JNI NativeZlibInflate.init): box a fresh
decompressor and return its address; nothing can fail and nothing is thrown. -/
def jni_inflate_init (a : Alloc) : (Int × Option JavaException) × Alloc :=
  ((Int.ofNat (boxIntoRaw a).1, none), (boxIntoRaw a).2)

/-- src/src/lib.rs lines 152-161 (JNI NativeZlibInflate.free): drop the box at
the handle's address unless the handle is 0. -/
def jni_inflate_free (w : Int → Option InflateContext) (ctx : Int) :
    Int → Option InflateContext :=
  if ctx ≠ 0 then fun a => if a = ctx then none else w a else w

/-- src/src/lib.rs lines 163-202 (JNI NativeZlibInflate.process): cast the
handle and buffers, delegate to `inflate_process`, and translate the outcome:
JNI_TRUE on success, otherwise JNI_FALSE together with a thrown
DataFormatException whose message is fixed per failure kind (match arms in
source order: Success, BadData, InsufficientSpace, Error). -/
def jni_inflate_process (eng : Engine) (w : Int → Option InflateContext)
    (ctx source_address source_length destination_address destination_length : Int)
    (m : Mem) : (Bool × Option JavaException) × Mem :=
  let r := inflate_process eng (castHandle w ctx) m
    (toUsize source_address) (toUsize source_length)
    (toUsize destination_address) (toUsize destination_length)
  (match r.1 with
   | .Success => (true, none)
   | .BadData =>
     (false, some ⟨"java/util/zip/DataFormatException", "inflate data is bad"⟩)
   | .InsufficientSpace =>
     (false, some ⟨"java/util/zip/DataFormatException", "uncompressed size is inaccurate"⟩)
   | .Error =>
     (false, some ⟨"java/util/zip/DataFormatException", "unknown libdeflate return code"⟩),
   r.2)

/-- src/src/lib.rs lines 204-207 (rxz_deflate_init): `deflate_init(level)
.unwrap_or_else(null_mut)` — the boxed context's pointer, or null on an
unsupported level. -/
def rxz_deflate_init (eng : Engine) (level : Int) : Option DeflateContext :=
  match deflate_init eng level with
  | some context => some context
  | none => none

/-- src/src/lib.rs lines 209-214 (rxz_deflate_free), with the pointer viewed
by its address: drop the box at `ctx` unless `ctx` is null (0). -/
def rxz_deflate_free (w : Int → Option DeflateContext) (ctx : Int) :
    Int → Option DeflateContext :=
  if ctx ≠ 0 then fun a => if a = ctx then none else w a else w

/-- src/src/lib.rs lines 216-236 (rxz_deflate_process): pass the pointer
through, cast the c_int lengths to usize, delegate to `deflate_process`, and
translate: success size as c_int, 0 for insufficient space, -1 for the
generic error. -/
def rxz_deflate_process (eng : Engine) (ctx : Option DeflateContext)
    (source : Nat) (source_length : Int) (destination : Nat)
    (destination_length : Int) (m : Mem) : Int × Mem :=
  let r := deflate_process eng ctx m
    source (toUsize source_length) destination (toUsize destination_length)
  (match r.1 with
   | .Success sz => jintOfUsize sz
   | .InsufficientSpace => 0
   | .Error => -1,
   r.2)

/-- src/src/lib.rs lines 238-243 (rxz_inflate_init): box a fresh decompressor
and return its (never null) pointer. -/
def rxz_inflate_init : Option InflateContext :=
  some InflateContext.mk

/-- src/src/lib.rs lines 245-250 (rxz_inflate_free), with the pointer viewed
by its address: drop the box at `ctx` unless `ctx` is null (0). -/
def rxz_inflate_free (w : Int → Option InflateContext) (ctx : Int) :
    Int → Option InflateContext :=
  if ctx ≠ 0 then fun a => if a = ctx then none else w a else w

/-- src/src/lib.rs lines 252-273 (rxz_inflate_process): pass the pointer
through, cast the c_int lengths, delegate to `inflate_process`, and translate
the outcome to the fixed status codes 0/1/2/3. -/
def rxz_inflate_process (eng : Engine) (ctx : Option InflateContext)
    (source : Nat) (source_length : Int) (destination : Nat)
    (destination_length : Int) (m : Mem) : Int × Mem :=
  let r := inflate_process eng ctx m
    source (toUsize source_length) destination (toUsize destination_length)
  (match r.1 with
   | .Success => 0
   | .InsufficientSpace => 1
   | .BadData => 2
   | .Error => 3,
   r.2)

/-- The internal outcome that one managed-surface compression call observes. -/
def jniDeflateOutcome (eng : Engine) (w : Int → Option DeflateContext)
    (ctx source_address source_length destination_address destination_length : Int)
    (m : Mem) : DeflateResult :=
  (deflate_process eng (castHandle w ctx) m
    (toUsize source_address) (toUsize source_length)
    (toUsize destination_address) (toUsize destination_length)).1

/-- The internal outcome that one managed-surface decompression call
observes. -/
def jniInflateOutcome (eng : Engine) (w : Int → Option InflateContext)
    (ctx source_address source_length destination_address destination_length : Int)
    (m : Mem) : InflateResult :=
  (inflate_process eng (castHandle w ctx) m
    (toUsize source_address) (toUsize source_length)
    (toUsize destination_address) (toUsize destination_length)).1

/-- The internal outcome that one C-surface decompression call observes. -/
def rxzInflateOutcome (eng : Engine) (ctx : Option InflateContext)
    (source : Nat) (source_length : Int) (destination : Nat)
    (destination_length : Int) (m : Mem) : InflateResult :=
  (inflate_process eng ctx m
    source (toUsize source_length) destination (toUsize destination_length)).1

/-- Result Translator table (spec section 4.3), managed compression column:
success(n) returns n, both failures return 0, nothing is thrown. -/
def managedDeflateSurface : DeflateResult → Int × Option JavaException
  | .Success n => (Int.ofNat n, none)
  | .InsufficientSpace => (0, none)
  | .Error => (0, none)

/-- Result Translator table (spec section 4.3), C compression column:
success(n) returns n (non-negative), insufficient space returns 0, the
generic error returns -1. -/
def cDeflateSurface : DeflateResult → Int
  | .Success n => Int.ofNat n
  | .InsufficientSpace => 0
  | .Error => -1

/-- Result Translator table (spec section 4.3), managed decompression column:
a success flag, plus a thrown DataFormatException with a fixed message per
failure kind (messages as in the source). -/
def managedInflateSurface : InflateResult → Bool × Option JavaException
  | .Success => (true, none)
  | .InsufficientSpace =>
    (false, some ⟨"java/util/zip/DataFormatException", "uncompressed size is inaccurate"⟩)
  | .BadData =>
    (false, some ⟨"java/util/zip/DataFormatException", "inflate data is bad"⟩)
  | .Error =>
    (false, some ⟨"java/util/zip/DataFormatException", "unknown libdeflate return code"⟩)

/-- Result Translator table (spec section 4.3), C decompression column: the
enumerated status codes 0/1/2/3. -/
def cInflateSurface : InflateResult → Int
  | .Success => 0
  | .InsufficientSpace => 1
  | .BadData => 2
  | .Error => 3

/-- The all-zero memory, used to instantiate theorems at concrete inputs. -/
def memZero : Mem := fun _ => 0

/-- A concrete engine instance (identity "compression"), used only to
instantiate theorems at concrete inputs; it satisfies the Engine contract but
is not libdeflate. -/
def idEngine : Engine where
  validLevel := fun l => decide (0 ≤ l ∧ l ≤ 12)
  compress := fun _ src cap =>
    if src.length ≤ cap then .ok src else .error .InsufficientSpace
  decompress := fun src cap =>
    if src.length ≤ cap then .ok src else .error .InsufficientSpace
  compress_length := by
    intro lvl src cap out h
    by_cases hc : src.length ≤ cap
    · simp only [if_pos hc, Except.ok.injEq] at h
      subst h
      exact hc
    · simp only [if_neg hc] at h
      exact absurd h (by simp)

theorem readBytes_length (m : Mem) (addr len : Nat) :
    (readBytes m addr len).length = len := by
  simp [readBytes]

theorem readBytes_writeBytes (m : Mem) (addr : Nat) (bs : List UInt8) :
    readBytes (writeBytes m addr bs) addr bs.length = bs := by
  apply List.ext_getElem
  · simp [readBytes]
  · intro i h1 h2
    simp only [readBytes, writeBytes, List.getElem_map, List.getElem_range]
    rw [if_pos ⟨Nat.le_add_right _ _, by omega⟩]
    have hsub : addr + i - addr = i := by omega
    rw [hsub, List.getD_eq_getElem]

theorem readBytes_writeBytes_len (m : Mem) (addr : Nat) (bs : List UInt8)
    (n : Nat) (h : bs.length = n) : readBytes (writeBytes m addr bs) addr n = bs :=
  h ▸ readBytes_writeBytes m addr bs

theorem toUsize_lt (i : Int) (h0 : 0 ≤ i) (h1 : i < 2 ^ 31) :
    toUsize i < 2 ^ 31 := by
  simp only [toUsize]
  omega

theorem jintOfUsize_small {n : Nat} (h : n < 2 ^ 31) :
    jintOfUsize n = Int.ofNat n := by
  simp only [jintOfUsize]
  rw [Nat.mod_eq_of_lt (by omega), if_pos h]
  rfl

theorem deflate_success_le (eng : Engine) (p : Option DeflateContext) (m : Mem)
    (sa sl da dc sz : Nat)
    (h : (deflate_process eng p m sa sl da dc).1 = .Success sz) : sz ≤ dc := by
  cases p with
  | none => simp [deflate_process] at h
  | some c =>
    cases hq : eng.compress c.level (readBytes m sa sl) dc with
    | ok out =>
      have hle := eng.compress_length c.level (readBytes m sa sl) dc out hq
      simp [deflate_process, hq] at h
      omega
    | error e => simp [deflate_process, hq] at h

/-- C1: every process call whose context handle is null/zero — on either
direction and either surface — returns the generic-error outcome of that
surface (managed compression 0 with no exception, C compression -1, managed
decompression JNI_FALSE with a thrown DataFormatException, C decompression 3)
and performs no read or write of the source or destination buffers: the
result is the same for every memory, and the memory is returned unchanged. -/
theorem null_handle_process (eng : Engine) (wD : Int → Option DeflateContext)
    (wI : Int → Option InflateContext) (m : Mem) (sa sl da dl : Int)
    (s2 d2 : Nat) (sl2 dl2 : Int) :
    jni_deflate_process eng wD 0 sa sl da dl m = ((0, none), m) ∧
    rxz_deflate_process eng none s2 sl2 d2 dl2 m = (-1, m) ∧
    jni_inflate_process eng wI 0 sa sl da dl m =
      ((false, some ⟨"java/util/zip/DataFormatException",
        "unknown libdeflate return code"⟩), m) ∧
    rxz_inflate_process eng none s2 sl2 d2 dl2 m = (3, m) :=
  ⟨rfl, rfl, rfl, rfl⟩

/-- C2: the C-ABI decompression entry point returns exactly 0 on the success
outcome, 1 on insufficient space, 2 on bad data and 3 on the generic error,
and never returns any other value; no exception is involved (the function
returns a bare integer). -/
theorem rxz_inflate_status_codes (eng : Engine) (ctx : Option InflateContext)
    (s : Nat) (sl : Int) (d : Nat) (dl : Int) (m : Mem) :
    (((rxz_inflate_process eng ctx s sl d dl m).1 = 0 ↔
        rxzInflateOutcome eng ctx s sl d dl m = .Success) ∧
     ((rxz_inflate_process eng ctx s sl d dl m).1 = 1 ↔
        rxzInflateOutcome eng ctx s sl d dl m = .InsufficientSpace) ∧
     ((rxz_inflate_process eng ctx s sl d dl m).1 = 2 ↔
        rxzInflateOutcome eng ctx s sl d dl m = .BadData) ∧
     ((rxz_inflate_process eng ctx s sl d dl m).1 = 3 ↔
        rxzInflateOutcome eng ctx s sl d dl m = .Error)) ∧
    ((rxz_inflate_process eng ctx s sl d dl m).1 = 0 ∨
     (rxz_inflate_process eng ctx s sl d dl m).1 = 1 ∨
     (rxz_inflate_process eng ctx s sl d dl m).1 = 2 ∨
     (rxz_inflate_process eng ctx s sl d dl m).1 = 3) := by
  have heq : (rxz_inflate_process eng ctx s sl d dl m).1 =
      cInflateSurface (rxzInflateOutcome eng ctx s sl d dl m) := by
    simp only [rxz_inflate_process, rxzInflateOutcome]
    cases h : (inflate_process eng ctx m s (toUsize sl) d (toUsize dl)).1 <;>
      simp [cInflateSurface]
  rw [heq]
  cases rxzInflateOutcome eng ctx s sl d dl m <;> simp [cInflateSurface]

/-- C3: the managed-runtime compression entry point never raises an exception,
returns the number of bytes the engine wrote on success, and returns 0 on
either failure outcome, provided the declared destination length is a
non-negative jint. -/
theorem jni_deflate_return_value (eng : Engine) (w : Int → Option DeflateContext)
    (ctx sa sl da dl : Int) (m : Mem) (h0 : 0 ≤ dl) (h1 : dl < 2 ^ 31) :
    (jni_deflate_process eng w ctx sa sl da dl m).1.2 = none ∧
    (jni_deflate_process eng w ctx sa sl da dl m).1.1 =
      (match jniDeflateOutcome eng w ctx sa sl da dl m with
       | .Success sz => (sz : Int)
       | .InsufficientSpace => 0
       | .Error => 0) := by
  refine ⟨rfl, ?_⟩
  simp only [jni_deflate_process, jniDeflateOutcome]
  cases h : (deflate_process eng (castHandle w ctx) m (toUsize sa) (toUsize sl)
      (toUsize da) (toUsize dl)).1 with
  | Success sz =>
    have hlt : sz < 2 ^ 31 :=
      lt_of_le_of_lt (deflate_success_le eng (castHandle w ctx) m (toUsize sa)
        (toUsize sl) (toUsize da) (toUsize dl) sz h) (toUsize_lt dl h0 h1)
    simpa using jintOfUsize_small hlt
  | InsufficientSpace => rfl
  | Error => rfl

/-- C3 witness: a concrete successful call (context at handle 1, level 6,
2 source bytes, capacity 4) returning the written byte count. -/
theorem jni_deflate_return_value_witness :
    (jni_deflate_process idEngine (fun _ => some ⟨6⟩) 1 0 2 0 4 memZero).1.2 = none ∧
    (jni_deflate_process idEngine (fun _ => some ⟨6⟩) 1 0 2 0 4 memZero).1.1 =
      (match jniDeflateOutcome idEngine (fun _ => some ⟨6⟩) 1 0 2 0 4 memZero with
       | .Success sz => (sz : Int)
       | .InsufficientSpace => 0
       | .Error => 0) :=
  jni_deflate_return_value idEngine (fun _ => some ⟨6⟩) 1 0 2 0 4 memZero
    (by decide) (by decide)

/-- C4 counterexample: a failing managed decompression call of the generic
error kind (null handle) throws a DataFormatException whose message is
"unknown libdeflate return code", not the "unknown return code" the claim
states. -/
theorem inflate_error_message_counterexample :
    (jni_inflate_process idEngine (fun _ => none) 0 0 0 0 0 memZero).1 =
      (false, some ⟨"java/util/zip/DataFormatException",
        "unknown libdeflate return code"⟩) ∧
    "unknown libdeflate return code" ≠ "unknown return code" :=
  ⟨rfl, by decide⟩

/-- C4 (amended): every failing managed decompression call throws a
DataFormatException whose fixed message is determined by the failure kind —
"uncompressed size is inaccurate" for insufficient space, "inflate data is
bad" for bad data, and "unknown libdeflate return code" for the generic
error — and a successful call throws nothing. -/
theorem inflate_exception_messages (eng : Engine) (w : Int → Option InflateContext)
    (ctx sa sl da dl : Int) (m : Mem) :
    (jniInflateOutcome eng w ctx sa sl da dl m = .Success →
      (jni_inflate_process eng w ctx sa sl da dl m).1 = (true, none)) ∧
    (jniInflateOutcome eng w ctx sa sl da dl m = .InsufficientSpace →
      (jni_inflate_process eng w ctx sa sl da dl m).1 =
        (false, some ⟨"java/util/zip/DataFormatException",
          "uncompressed size is inaccurate"⟩)) ∧
    (jniInflateOutcome eng w ctx sa sl da dl m = .BadData →
      (jni_inflate_process eng w ctx sa sl da dl m).1 =
        (false, some ⟨"java/util/zip/DataFormatException",
          "inflate data is bad"⟩)) ∧
    (jniInflateOutcome eng w ctx sa sl da dl m = .Error →
      (jni_inflate_process eng w ctx sa sl da dl m).1 =
        (false, some ⟨"java/util/zip/DataFormatException",
          "unknown libdeflate return code"⟩)) := by
  simp only [jni_inflate_process, jniInflateOutcome]
  cases (inflate_process eng (castHandle w ctx) m (toUsize sa) (toUsize sl)
      (toUsize da) (toUsize dl)).1 <;> simp

/-- C4 witness: the amended theorem applied at a concrete generic-error call
(null handle). -/
theorem inflate_exception_messages_witness :
    (jni_inflate_process idEngine (fun _ => none) 0 0 0 0 0 memZero).1 =
      (false, some ⟨"java/util/zip/DataFormatException",
        "unknown libdeflate return code"⟩) :=
  (inflate_exception_messages idEngine (fun _ => none) 0 0 0 0 0 memZero).2.2.2
    (by decide)

/-- C5: for a compression level outside the engine's supported range,
compressor creation fails on every surface: the shared constructor returns
none, the C entry point returns the null pointer, and the managed entry point
throws an OutOfMemoryError and returns the zero handle — never a usable
handle. -/
theorem invalid_level_init_fails (eng : Engine) (level : Int) (a : Alloc)
    (h : eng.validLevel level = false) :
    deflate_init eng level = none ∧
    rxz_deflate_init eng level = none ∧
    jni_deflate_init eng a level =
      ((0, some ⟨"java/lang/OutOfMemoryError", "libdeflate allocate compressor"⟩), a) := by
  have hinit : deflate_init eng level = none := by
    simp [deflate_init, compressionLvlNew, h]
  exact ⟨hinit, by simp [rxz_deflate_init, hinit], by simp [jni_deflate_init, hinit]⟩

/-- C5 witness: level 99 is outside the supported range of the concrete
engine, and both surfaces report the failure. -/
theorem invalid_level_init_fails_witness :
    deflate_init idEngine 99 = none ∧
    rxz_deflate_init idEngine 99 = none ∧
    jni_deflate_init idEngine ⟨1, Nat.one_ne_zero⟩ 99 =
      ((0, some ⟨"java/lang/OutOfMemoryError", "libdeflate allocate compressor"⟩),
        ⟨1, Nat.one_ne_zero⟩) :=
  invalid_level_init_fails idEngine 99 ⟨1, Nat.one_ne_zero⟩ (by decide)

/-- C6: destroy/free with the null/zero handle is a no-op for both context
kinds on both surfaces: iterated any number of times it deallocates nothing
and leaves the heap of live contexts exactly as it was. -/
theorem destroy_null_noop (n : Nat) (wD : Int → Option DeflateContext)
    (wI : Int → Option InflateContext) :
    (fun w => jni_deflate_free w 0)^[n] wD = wD ∧
    (fun w => rxz_deflate_free w 0)^[n] wD = wD ∧
    (fun w => jni_inflate_free w 0)^[n] wI = wI ∧
    (fun w => rxz_inflate_free w 0)^[n] wI = wI := by
  refine ⟨Function.iterate_fixed ?_ n, Function.iterate_fixed ?_ n,
    Function.iterate_fixed ?_ n, Function.iterate_fixed ?_ n⟩ <;>
      simp [jni_deflate_free, rxz_deflate_free, jni_inflate_free, rxz_inflate_free]

/-- C7: round-trip — for a compressor context created at a valid level and a
decompressor context, whenever compressing the source region succeeds, then
decompressing the compressed bytes with declared destination length equal to
the source length succeeds and reproduces the source bytes exactly.  The
engine is the spec's opaque capability; `hrt` is its round-trip contract. -/
theorem compress_roundtrip (eng : Engine) (lvl : Int) (c : DeflateContext)
    (d : InflateContext)
    (hinit : deflate_init eng lvl = some c)
    (hd : rxz_inflate_init = some d)
    (hrt : ∀ s cap out, eng.compress c.level s cap = .ok out →
      eng.decompress out s.length = .ok s)
    (m : Mem) (srcA srcL dstA dstC outA sz : Nat)
    (hc : (deflate_process eng (some c) m srcA srcL dstA dstC).1 = .Success sz) :
    (inflate_process eng (some d)
        ((deflate_process eng (some c) m srcA srcL dstA dstC).2)
        dstA sz outA srcL).1 = .Success ∧
    readBytes (inflate_process eng (some d)
        ((deflate_process eng (some c) m srcA srcL dstA dstC).2)
        dstA sz outA srcL).2 outA srcL
      = readBytes m srcA srcL := by
  cases hq : eng.compress c.level (readBytes m srcA srcL) dstC with
  | error e => simp [deflate_process, hq] at hc
  | ok out =>
    have hsz : out.length = sz := by simpa [deflate_process, hq] using hc
    have hm2 : (deflate_process eng (some c) m srcA srcL dstA dstC).2 =
        writeBytes m dstA out := by
      simp [deflate_process, hq]
    rw [hm2]
    have hread : readBytes (writeBytes m dstA out) dstA sz = out :=
      readBytes_writeBytes_len m dstA out sz hsz
    have hdec : eng.decompress out srcL = .ok (readBytes m srcA srcL) := by
      have hh := hrt (readBytes m srcA srcL) dstC out hq
      rwa [readBytes_length] at hh
    refine ⟨by simp [inflate_process, hread, hdec], ?_⟩
    simp only [inflate_process, hread, hdec]
    exact readBytes_writeBytes_len _ outA _ srcL (readBytes_length m srcA srcL)

/-- C7 witness: the round-trip theorem applied to a concrete engine instance,
level 6, three source bytes at address 0, compressed to address 10 with
capacity 5, decompressed to address 20 with declared length 3. -/
theorem compress_roundtrip_witness :
    (inflate_process idEngine (some InflateContext.mk)
        ((deflate_process idEngine (some ⟨6⟩) memZero 0 3 10 5).2) 10 3 20 3).1
      = .Success ∧
    readBytes (inflate_process idEngine (some InflateContext.mk)
        ((deflate_process idEngine (some ⟨6⟩) memZero 0 3 10 5).2) 10 3 20 3).2 20 3
      = readBytes memZero 0 3 :=
  compress_roundtrip idEngine 6 ⟨6⟩ InflateContext.mk (by decide) rfl
    (by
      intro s cap out h
      simp only [idEngine] at h ⊢
      by_cases hcap : s.length ≤ cap
      · rw [if_pos hcap] at h
        cases h
        rw [if_pos (le_refl s.length)]
      · rw [if_neg hcap] at h
        cases h)
    memZero 0 3 10 5 20 3 (by decide)

/-- C8: both surfaces of each direction delegate to the same shared processing
function on the same context and buffer arguments, and each surface's result
is exactly the per-surface translation table applied to that single shared
outcome (the destination length being a non-negative jint). -/
theorem surfaces_share_core (eng : Engine) (wD : Int → Option DeflateContext)
    (wI : Int → Option InflateContext) (ctx sa sl da dl : Int) (m : Mem)
    (h0 : 0 ≤ dl) (h1 : dl < 2 ^ 31) :
    (jni_deflate_process eng wD ctx sa sl da dl m =
      (managedDeflateSurface (jniDeflateOutcome eng wD ctx sa sl da dl m),
        (deflate_process eng (castHandle wD ctx) m (toUsize sa) (toUsize sl)
          (toUsize da) (toUsize dl)).2) ∧
     rxz_deflate_process eng (castHandle wD ctx) (toUsize sa) sl (toUsize da) dl m =
      (cDeflateSurface (jniDeflateOutcome eng wD ctx sa sl da dl m),
        (deflate_process eng (castHandle wD ctx) m (toUsize sa) (toUsize sl)
          (toUsize da) (toUsize dl)).2)) ∧
    (jni_inflate_process eng wI ctx sa sl da dl m =
      (managedInflateSurface (jniInflateOutcome eng wI ctx sa sl da dl m),
        (inflate_process eng (castHandle wI ctx) m (toUsize sa) (toUsize sl)
          (toUsize da) (toUsize dl)).2) ∧
     rxz_inflate_process eng (castHandle wI ctx) (toUsize sa) sl (toUsize da) dl m =
      (cInflateSurface (jniInflateOutcome eng wI ctx sa sl da dl m),
        (inflate_process eng (castHandle wI ctx) m (toUsize sa) (toUsize sl)
          (toUsize da) (toUsize dl)).2)) := by
  have hbound : ∀ sz, (deflate_process eng (castHandle wD ctx) m (toUsize sa)
      (toUsize sl) (toUsize da) (toUsize dl)).1 = .Success sz →
      jintOfUsize sz = Int.ofNat sz := fun sz hs =>
    jintOfUsize_small (lt_of_le_of_lt
      (deflate_success_le eng (castHandle wD ctx) m (toUsize sa) (toUsize sl)
        (toUsize da) (toUsize dl) sz hs)
      (toUsize_lt dl h0 h1))
  refine ⟨⟨?_, ?_⟩, ?_, ?_⟩
  · simp only [jni_deflate_process, jniDeflateOutcome]
    cases h : (deflate_process eng (castHandle wD ctx) m (toUsize sa) (toUsize sl)
        (toUsize da) (toUsize dl)).1 with
    | Success sz => simp [managedDeflateSurface, hbound sz h]
    | InsufficientSpace => rfl
    | Error => rfl
  · simp only [rxz_deflate_process, jniDeflateOutcome]
    cases h : (deflate_process eng (castHandle wD ctx) m (toUsize sa) (toUsize sl)
        (toUsize da) (toUsize dl)).1 with
    | Success sz => simp [cDeflateSurface, hbound sz h]
    | InsufficientSpace => rfl
    | Error => rfl
  · simp only [jni_inflate_process, jniInflateOutcome]
    cases (inflate_process eng (castHandle wI ctx) m (toUsize sa) (toUsize sl)
        (toUsize da) (toUsize dl)).1 <;> rfl
  · simp only [rxz_inflate_process, jniInflateOutcome]
    cases (inflate_process eng (castHandle wI ctx) m (toUsize sa) (toUsize sl)
        (toUsize da) (toUsize dl)).1 <;> rfl

/-- C8 witness: the surface-correspondence theorem applied at a concrete call
(null handle, zero buffers, declared destination length 4), managed
compression conjunct. -/
theorem surfaces_share_core_witness :
    jni_deflate_process idEngine (fun _ => none) 0 0 0 0 4 memZero =
      (managedDeflateSurface (jniDeflateOutcome idEngine (fun _ => none) 0 0 0 0 4 memZero),
        (deflate_process idEngine (castHandle (fun _ => none) 0) memZero (toUsize 0)
          (toUsize 0) (toUsize 0) (toUsize 4)).2) :=
  (surfaces_share_core idEngine (fun _ => none) (fun _ => none) 0 0 0 0 4 memZero
    (by decide) (by decide)).1.1

/-- C9: decompressor creation always succeeds on both surfaces: the managed
entry point returns a non-zero handle and throws nothing, and the C entry
point returns a non-null pointer. -/
theorem decompressor_init_always_succeeds (a : Alloc) :
    (jni_inflate_init a).1.1 ≠ 0 ∧ (jni_inflate_init a).1.2 = none ∧
    rxz_inflate_init.isSome = true := by
  refine ⟨?_, rfl, rfl⟩
  intro hz
  have hz2 : Int.ofNat a.nextAddr = 0 := hz
  exact a.next_ne_zero (Int.ofNat_eq_zero.mp hz2)

/-- C10: on the compression path every engine-reported failure for a non-null
handle is classified as insufficient-space (the generic-error outcome is
unreachable there), and consequently the C-ABI compression entry point
returns -1 exactly when its handle argument is null (destination length being
a non-negative jint). -/
theorem deflate_error_only_null_handle (eng : Engine) (ctx : Option DeflateContext)
    (s : Nat) (sl : Int) (d : Nat) (dl : Int) (m : Mem)
    (h0 : 0 ≤ dl) (h1 : dl < 2 ^ 31) :
    (∀ c sa sl2 da dc, (deflate_process eng (some c) m sa sl2 da dc).1 ≠ .Error) ∧
    ((rxz_deflate_process eng ctx s sl d dl m).1 = -1 ↔ ctx = none) := by
  constructor
  · intro c sa sl2 da dc
    cases hq : eng.compress c.level (readBytes m sa sl2) dc <;>
      simp [deflate_process, hq]
  · cases ctx with
    | none => simp [rxz_deflate_process, deflate_process]
    | some c =>
      simp only [rxz_deflate_process]
      cases hq : eng.compress c.level (readBytes m s (toUsize sl)) (toUsize dl) with
      | ok out =>
        have hlt : out.length < 2 ^ 31 :=
          lt_of_le_of_lt
            (eng.compress_length c.level (readBytes m s (toUsize sl)) (toUsize dl) out hq)
            (toUsize_lt dl h0 h1)
        simp [deflate_process, hq, jintOfUsize_small hlt]
      | error e => simp [deflate_process, hq]

/-- C10 witness: with a null handle and destination length 4 the C compression
entry point returns -1. -/
theorem deflate_error_only_null_handle_witness :
    (rxz_deflate_process idEngine none 0 0 0 4 memZero).1 = -1 ↔
      (none : Option DeflateContext) = none :=
  (deflate_error_only_null_handle idEngine none 0 0 0 4 memZero
    (by decide) (by decide)).2

end RecastXZ
